import Mathlib

/-
A verification development for the Deep Space Nine tag-cleaning engine
(the `Ds9cast` class of clean-db-deep-space-nine.py).  A Python string
is modelled as its list of Unicode code points, which makes string
equality, containment and the lexicographic order used by `list.sort`
exact.  Each table and method of the class is translated directly from
the source.
-/

set_option maxRecDepth 100000
set_option maxHeartbeats 4000000

namespace Ds9

/-- Python strings, modelled as lists of Unicode code points. -/
abbrev Str := List Nat

/-- Code points of a Lean string literal. -/
def str (s : String) : Str := s.data.map Char.toNat

/-- Sentinel `Ds9cast.NON_CAST = 'non-cast'`, the marker for names outside the
cast. -/
def NON_CAST : Str := str "non-cast"

/-- Table `Ds9cast.zap_dict`: any name containing a key phrase is replaced
by the value. -/
def zap_dict : List (Str × Str) :=
  [(str "(OC)", NON_CAST),
   (str "OC", NON_CAST),
   (str "Original Character", NON_CAST)]

/-- Table `Ds9cast.delete_list`: phrases removed from names.  Entries such as
`(Past)(Ro Laren mentioned)` arise from adjacent string literals in the
source that concatenate. -/
def delete_list : List Str :=
  [str " (Changeling)",
   str " (implied/referenced)",
   str " (nebulously one-sided)",
   str " (past)",
   str " (relevant)",
   str " - Character",
   str " - Relationship",
   str " briefly mentioned",
   str " is discussed",
   str "(  )",
   str "()",
   str "(?)",
   str "(ACoTaR)",
   str "(Background)",
   str "(DS9)",
   str "(Deceased)",
   str "(Deep Space Nine)",
   str "(Implied",
   str "(Implied)",
   str "(Implied-Past)",
   str "(Keiko mentioned)",
   str "(Mentioned)",
   str "(One-Sided)",
   str "(Past)(Ro Laren mentioned)",
   str "(ST DS9)",
   str "(Star Trek DS9)",
   str "(Star Trek Deep Space Nine)",
   str "(Star Trek)",
   str "(Star Trek: DS9)",
   str "(Star Trek:DS9)",
   str "(Trill symbiont)",
   str "(alluded to)",
   str "(alluded)",
   str "(alternate)",
   str "(appears via PADD)",
   str "(background)",
   str "(both)",
   str "(briefly)",
   str "(but not really though)",
   str "(cameo)",
   str "(exes)",
   str "(flashbacks)",
   str "(flashbacks)",
   str "(hinted at)",
   str "(holographic)",
   str "(implied",
   str "(implied/referenced)",
   str "(in absentia)",
   str "(looming presence) - Character",
   str "(looming presence)",
   str "(mention)",
   str "(mentioned) past ",
   str "(mentioned)",
   str "(mentionned)",
   str "(mentionné)",
   str "(minor)",
   str "(mirror)",
   str "(multiple hosts)",
   str "(not really)",
   str "(ocs mentioned)",
   str "(ofcs mentioned)",
   str "(offscreen)",
   str "(one night stand)",
   str "(one scene)",
   str "(one sided)",
   str "(one-sided)(one-sided?)",
   str "(past relationship)(pre relationship)",
   str "(pre-relationship)",
   str "(reference)",
   str "(referenced)",
   str "(relationship)",
   str "(side)",
   str "(tragic)",
   str "(voice)",
   str "- relationship",
   str "A  mention of",
   str "AU ",
   str "Background ",
   str "Changeling ",
   str "Changeling!",
   str "Dr.",
   str "Former ",
   str "If you squint ",
   str "Implied ",
   str "Light ",
   str "Mentioned ",
   str "Mentioned Past ",
   str "Mentions of ",
   str "Minor ",
   str "Mirror ",
   str "One-sided ",
   str "Past ",
   str "Slight",
   str "Smuggler ",
   str "The Idea of ",
   str "background ",
   str "cameo",
   str "casual ",
   str "fem!",
   str "mentioned",
   str "mentions of ",
   str "mildly implied",
   str "minor ",
   str "one sided",
   str "one-sided",
   str "onesided",
   str "past ",
   str "possibly onesided",
   str "pre ",
   str "pre-",
   str "side ",
   str "slight"]

/-- Table `Ds9cast.known_set`: the canonical cast names (a Python set; only
membership is used, so a list is a faithful model). -/
def known_set : List Str :=
  [str "Aamin Marritza",
   str "Admiral Whatley",
   str "Agent Cole",
   str "Akellen Macet",
   str "Akorem Laan",
   str "Alexander Rozhenko",
   str "Alon Ghemor",
   str "Altovar",
   str "Aluura",
   str "Alynna Nechayev",
   str "Amaro",
   str "Ambassador Lojal",
   str "Amsha Bashir",
   str "Arandis",
   str "Arissa",
   str "Arjin",
   str "Athra Dukat",
   str "Audrid Dax",
   str "Baby Changeling",
   str "Bandee",
   str "Bareil Antos",
   str "Barin Troi",
   str "Barkan Lokar",
   str "Basso Tromac",
   str "Bejal Otner",
   str "Benjamin Sisko",
   str "Benteen",
   str "Boday",
   str "Boheeka",
   str "Boq\u0027ta",
   str "Borath",
   str "Broca",
   str "Broik",
   str "Brunt",
   str "Buck Bokai",
   str "Cal Hudson",
   str "Captain Solok",
   str "Ch\u0027Targh",
   str "Chalan Aroya",
   str "Chester",
   str "Cing\u0027ta",
   str "Corat Damar",
   str "Corbin Entek",
   str "Cox",
   str "Curzon Dax",
   str "Darhe\u0027el",
   str "Dax",
   str "Dejar",
   str "Deral",
   str "Deyos",
   str "Drex",
   str "Dukat\u0027s Children",
   str "Dukat\u0027s Mother",
   str "Dulath",
   str "Dulmur",
   str "Ee\u0027char",
   str "Elias Vaughn",
   str "Elim Garak",
   str "Ellis Gareth",
   str "Emergency Medical Hologram Mark II",
   str "Emony Dax",
   str "Enabran Tain",
   str "Enina Tandro",
   str "Entek",
   str "Eris",
   str "Erit",
   str "Ezri Dax",
   str "Fala Trentin",
   str "Felix",
   str "Female Changeling",
   str "Furel",
   str "Gaila",
   str "Gariff Lucsly",
   str "Gelnon",
   str "Gilora Rejal",
   str "Girani",
   str "Glenon",
   str "Gor",
   str "Goran\u0027Agar",
   str "Gowron",
   str "Grilka",
   str "Grimp",
   str "Gul Jasad",
   str "Gul Marratt",
   str "Gul Revok",
   str "Gul Rusot",
   str "Gul Russol",
   str "Gul Zarale",
   str "Hagath",
   str "Hanok",
   str "Hanor Pren",
   str "Ikat\u0027ika",
   str "Iliana Ghemor",
   str "Iloja of Prim",
   str "Ishka",
   str "Jabara",
   str "Jack",
   str "Jadzia Dax",
   str "Jake Sisko",
   str "Janel Tigan",
   str "Jaro Essa",
   str "Jas Holza",
   str "Jennifer Sisko",
   str "Joran Dax",
   str "Joseph Sisko",
   str "Judith Sisko",
   str "Julian Bashir",
   str "K\u0027Ehleyr",
   str "Kabo",
   str "Kaga",
   str "Kai Winn",
   str "Kalandra",
   str "Kalita",
   str "Kang",
   str "Karen Loews",
   str "Kasidy Yates",
   str "Keevan",
   str "Keiko O’Brien",
   str "Kel Lokar",
   str "Kela Idaris",
   str "Kelas Parmak",
   str "Keldar",
   str "Kesha",
   str "Kilana",
   str "Kimara Cretak",
   str "Kira Meru",
   str "Kira Nerys",
   str "Kira Pohl",
   str "Kira Reon",
   str "Kira Taban",
   str "Kirayoshi O\u0027Brien",
   str "Koloth",
   str "Kor",
   str "Kotan Pa\u0027Dar",
   str "Koval",
   str "Kukalaka",
   str "Kurn",
   str "Laas",
   str "Laira",
   str "Lauren",
   str "Leeta",
   str "Legate Kell",
   str "Lela Dax",
   str "Lenara Kahn",
   str "Letant",
   str "Lewis Zimmerman",
   str "Leyton",
   str "Li Nalas",
   str "Lieutenant Watley",
   str "Lisa Cusak",
   str "Lorit Akrem",
   str "Luaran",
   str "Lupaza",
   str "Lursa",
   str "Luther Sloan",
   str "Lwaxana Troi",
   str "Lysia Arlin",
   str "M\u0027Pella",
   str "Maihar\u0027du",
   str "Mardah",
   str "Mareel",
   str "Martok",
   str "Mavek",
   str "Mekor Dukat",
   str "Melora Pazlar",
   str "Meya Rejal",
   str "Michael Eddington",
   str "Mila Garak",
   str "Miles O\u0027Brien",
   str "Molly O\u0027Brien",
   str "Mora Pol",
   str "Morn",
   str "Mullibok",
   str "Nal Dejar",
   str "Nareeya",
   str "Natima Lang",
   str "Neral",
   str "Niala Damar",
   str "Nilani Kahn",
   str "Nilva",
   str "Nog",
   str "Norvo Tigan",
   str "N’garen",
   str "Odo",
   str "Omet\u0027iklan",
   str "Onara",
   str "Opaka",
   str "Ornak",
   str "Palandine",
   str "Palis Delon",
   str "Parn",
   str "Patrick",
   str "Pel",
   str "Prinadora",
   str "Procal Dukat",
   str "Pythas Lok",
   str "Q",
   str "Quark",
   str "Raymer",
   str "Rebecca Sisko",
   str "Rebecca Sullivan",
   str "Reese",
   str "Remata\u0027Klan",
   str "Renhol",
   str "Richard Bashir",
   str "Rionoj",
   str "Rom",
   str "Rotan\u0027talag",
   str "Rugal Pa\u0027Dar",
   str "Sakal Damar",
   str "Sarah Sisko",
   str "Sarina Douglas",
   str "Shakaar Edon",
   str "Sirella",
   str "Skrain Dukat",
   str "Solbor",
   str "T\u0027Rul",
   str "Tagana",
   str "Tahna Los",
   str "Tamal",
   str "Taran\u0027atar",
   str "Tekeny Ghemor",
   str "Telnorri",
   str "Thomas Riker",
   str "Thrax",
   str "Tobin Dax",
   str "Tora Naprem",
   str "Tora Ziyal",
   str "Torias Dax",
   str "Trevean",
   str "Vaatrik Pallra",
   str "Vance",
   str "Vash",
   str "Vedek Nane",
   str "Verad",
   str "Vic Fontaine",
   str "Vilix\u0027pran",
   str "Vreenak",
   str "Weyoun",
   str "William Ross",
   str "Winn Adami",
   str "Worf",
   str "Wykoff",
   str "Yanas Tigan",
   str "Yareth",
   str "Yedrin Dax",
   str "Yelgrun",
   str "Zarale",
   str "Zek",
   str "Ziranne Idaris"]

/-- Table `Ds9cast.synonym_dict`: exact-match renamings to canonical names
(keys are distinct, so an association list models the dict). -/
def synonym_dict : List (Str × Str) :=
  [(str "Athra Dukat\u0027s wife", str "Athra Dukat"),
   (str "Benjamin Sisko\u0027s Authoritative Voice", str "Benjamin Sisko"),
   (str "Ch’targh", str "Ch\u0027Targh"),
   (str "Clone!Miles O\u0027Brien", str "Miles O\u0027Brien"),
   (str "Cäpt\u0027n Sisko", str "Benjamin Sisko"),
   (str "Damar\u0027s Son", str "Sakal Damar"),
   (str "Damar\u0027s Wife", str "Niala Damar"),
   (str "Dukat\u0027s Father | Procal Dukat", str "Procal Dukat"),
   (str "Dukat\u0027s Wife | Athra Dukat", str "Athra Dukat"),
   (str "Dukat\u0027s ex Wife | Athra Dukat", str "Athra Dukat"),
   (str "Dukat\u0027s kids", str "Dukat\u0027s Children"),
   (str "Dukat\u0027s wife", str "Athra Dukat\u0027s wife"),
   (str "Enabran Tain\u0027s ghost", str "Enabran Tain"),
   (str "Ezri Dax\u0027s Far Beyond the Stars Universe Character", str "Ezri Dax"),
   (str "Ikat\u0027ika | Jem\u0027Hadar First", str "Ikat\u0027ika"),
   (str "Keiko O\u0027 Brien ()", str "Keiko O\u0027Brien"),
   (str "Keiko O\u0027 Brien", str "Keiko O’Brien"),
   (str "Keiko O\u0027Brien", str "Keiko O\u0027Brien"),
   (str "Keiko o\u0027brien", str "Keiko O’Brien"),
   (str "Keyko O\u0027Brien", str "Keiko O’Brien"),
   (str "Mentioning\u0027s of Dukat\u0027s Wife", str "Athra Dukat"),
   (str "Mile O\u0027Brien (One sided)", str "Miles O\u0027Brien"),
   (str "Miles O\u0027Brian", str "Miles O’Brien"),
   (str "Miles O\u0027Brien ()", str "Miles O\u0027Brien"),
   (str "Miles O\u0027Brien (friendship)", str "Miles O\u0027Brien"),
   (str "Miles O\u0027Brien by mention only", str "Miles O\u0027Brien"),
   (str "Miles O\u0027Brien\u0027s voice", str "Miles O\u0027Brien"),
   (str "Miles O’Brien", str "Miles O\u0027Brien"),
   (str "Mirror Miles O\u0027Brien", str "Miles O\u0027Brien"),
   (str "O\u0027Brien", str "Miles O\u0027Brien"),
   (str "Odo\u0027Ital", str "Odo"),
   (str "Odo’iTal", str "Odo"),
   (str "Quark (in the back of Quark\u0027s mind)", str "Quark"),
   (str "Quark\u0027s Mother", str "Ishka"),
   (str "Remata \u0027Klan", str "Remata\u0027Klan"),
   (str "Smiley O\u0027brien", str "Miles O\u0027Brien"),
   (str "Sub-Commander T\u0027Rul", str "T\u0027Rul"),
   (str "Tschief O\u0027Brien", str "Miles O\u0027Brien"),
   (str "dukat\u0027s children", str "Dukat\u0027s Children"),
   (str "mention o\u0027brian", str "Miles O\u0027Brien"),
   (str "miles O\u0027Brien", str "Miles O\u0027Brien"),
   (str "miles o\u0027brien", str "Miles O\u0027Brien"),
   (str "sort of dukat but really he\u0027s just around to be murdered", str "Skrain Dukat"),
   (str " Kasidy Yates", str "Kasidy Yates"),
   (str "(the idea of) Elim Garak", str "Elim Garak"),
   (str "-Bashir", str "Julian Bashir"),
   (str "A  mention of Julian Bashir", str "Julian Bashir"),
   (str "Admiral Nechayev (Star Trek)", str "Alynna Nechayev"),
   (str "Admiral Ross", str "William Ross"),
   (str "Agent Cole (Star Trek)", str "Agent Cole"),
   (str "Agent Julian Bashir of MI6", str "Julian Bashir"),
   (str "Alexander", str "Alexander Rozhenko"),
   (str "Alternate Odo", str "Odo"),
   (str "Alternate Timeline Odo (Children Of Time)", str "Odo"),
   (str "Altovar (Star Trek)", str "Altovar"),
   (str "Altovar (reference)", str "Altovar"),
   (str "Amaro (Star Trek)", str "Amaro"),
   (str "Ambassador Worf", str "Worf"),
   (str "Anastasia Komananov", str "Kira Nerys"),
   (str "Anjohl Tennan", str "Skrain Dukat"),
   (str "Arandis (Star Trek)", str "Arandis"),
   (str "Arissa (Star Trek)", str "Arissa"),
   (str "Arjin (Star Trek)", str "Arjin"),
   (str "Bareil", str "Bareil Antos"),
   (str "Bariel", str "Bareil Antos"),
   (str "Barin", str "Barin Troi"),
   (str "Barkan", str "Barkan Lokar"),
   (str "Bashir", str "Julian Bashir"),
   (str "Ben Sisko", str "Benjamin Sisko"),
   (str "Ben", str "Benjamin Sisko"),
   (str "Benjamin", str "Benjamin Sisko"),
   (str "Benjamine Sisko", str "Benjamin Sisko"),
   (str "Benny Russell", str "Benjamin Sisko"),
   (str "Bi Julian Bashir", str "Julian Bashir"),
   (str "Calvin Hudson", str "Cal Hudson"),
   (str "Captain Bashir", str "Julian Bashir"),
   (str "Captain Benteen", str "Benteen"),
   (str "Captain Boday", str "Boday"),
   (str "Captain Cusak", str "Lisa Cusak"),
   (str "Captain Julian Bashir", str "Julian Bashir"),
   (str "Captain Raymer", str "Raymer"),
   (str "Captain Sisko", str "Benjamin Sisko"),
   (str "Captain Solok", str "Captain Solok"),
   (str "Chalon Aroya", str "Chalan Aroya"),
   (str "Chancellor Martok", str "Martok"),
   (str "Changeling Julian Bashir", str "Julian Bashir"),
   (str "Chester the Cat", str "Chester"),
   (str "Commander Hudson", str "Cal Hudson"),
   (str "Commander Sisko", str "Benjamin Sisko"),
   (str "Constable Odo", str "Odo"),
   (str "Constable Quark", str "Quark"),
   (str "Constäbbel Odo", str "Odo"),
   (str "Counselor Telnorri", str "Telnorri"),
   (str "Cousin Gaila", str "Gaila"),
   (str "Curson", str "Curzon Dax"),
   (str "Curzon", str "Curzon Dax"),
   (str "DR cox-", str "Cox"),
   (str "Damar", str "Corat Damar"),
   (str "Darlene Kursky", str "Jadzia Dax"),
   (str "Dax (Trill symbiot)", str "Dax"),
   (str "Dax Symbiont", str "Dax"),
   (str "Dax symbiont", str "Dax"),
   (str "Doctor Girani", str "Girani"),
   (str "Doctor Julian Bashir", str "Julian Bashir"),
   (str "Doctor Lenara Kahn", str "Lenara Kahn"),
   (str "Doctor Mora Pol", str "Mora Pol"),
   (str "Doctor Mora", str "Mora Pol"),
   (str "Dr Bashir", str "Julian Bashir"),
   (str "Dr. Cox", str "Cox"),
   (str "Dr. Girani", str "Girani"),
   (str "Dr. Hippocrates Noah", str "Benjamin Sisko"),
   (str "Dr. Kalandra", str "Kalandra"),
   (str "Dr. Karen Loews", str "Karen Loews"),
   (str "Dr. Lewis Zimmerman", str "Lewis Zimmerman"),
   (str "Dr. Mora Pel", str "Mora Pol"),
   (str "Dr. Mora", str "Mora Pol"),
   (str "Dr. Noah", str "Benjamin Sisko"),
   (str "Dr. Wykoff", str "Wykoff"),
   (str "Dr.Cox", str "Cox"),
   (str "Dragon!Garak", str "Elim Garak"),
   (str "Dukat (Star Trek)", str "Skrain Dukat"),
   (str "Dukat (implied", str "Skrain Dukat"),
   (str "Dukat", str "Skrain Dukat"),
   (str "Dukats wife", str "Athra Dukat"),
   (str "EMH Julian Bashir", str "Emergency Medical Hologram Mark II"),
   (str "Edon Shaakar", str "Shaakar Edon"),
   (str "Eim Garak", str "Elim Garak"),
   (str "Elim Garrik", str "Elim Garak"),
   (str "Enabran Tain (reference)", str "Enabran Tain"),
   (str "Enabran Tain and non-canon characters", str "Enabran Tain"),
   (str "Eomony Dax", str "Emony Dax"),
   (str "Ezri Tigan", str "Ezri Dax"),
   (str "Ezri", str "Ezri Dax"),
   (str "FOC", NON_CAST),
   (str "Fake Bashir", str "Julian Bashir"),
   (str "Falcon", str "Miles O\u0027Brien"),
   (str "Fem!Gul Zarale", str "Gul Zarale"),
   (str "Fem!Li Nalas", str "Li Nalas"),
   (str "Female Founder", str "Female Changeling"),
   (str "Future Odo", str "Odo"),
   (str "Future Quark", str "Quark"),
   (str "Gabriel Bell", str "Benjamin Sisko"),
   (str "Gaia Odo", str "Odo"),
   (str "Garak (relationship)", str "Elim Garak"),
   (str "Garak is only", str "Elim Garak"),
   (str "Garak", str "Elim Garak"),
   (str "General Martok", str "Martok"),
   (str "Glinn Damar", str "Corat Damar"),
   (str "Grand Nagus Rom", str "Rom"),
   (str "Guhl Dukat", str "Skrain Dukat"),
   (str "Gul Damar", str "Corat Damar"),
   (str "Gul Dukat", str "Skrain Dukat"),
   (str "Gul Parn", str "Parn"),
   (str "Gul Zarale but girl", str "Zarale"),
   (str "High Nagus Rom", str "Rom"),
   (str "Hippocrates Noah", str "Benjamin Sisko"),
   (str "Honey Bare", str "Jadzia Dax"),
   (str "Human!Garak", str "Elim Garak"),
   (str "Iliana", str "Iliana Ghemor"),
   (str "Illiana Ghemor", str "Iliana Ghemor"),
   (str "Iloja of Prime", str "Iloja of Prim"),
   (str "Iloja", str "Iloja of Prim"),
   (str "Imaginary Elim Garak", str "Elim Garak"),
   (str "Infant Changeling", str "Baby Changeling"),
   (str "Intendant", str "Kira Nerys"),
   (str "Jadzea Dax", str "Jadzia Dax"),
   (str "Jadzia Daz", str "Jadzia Dax"),
   (str "Jadzia Idaris", str "Jadzia Dax"),
   (str "Jadzia briefly", str "Jadzia Dax"),
   (str "Jadzia is  literally one time", str "Jadzia Dax"),
   (str "Jadzia", str "Jadzia Dax"),
   (str "Jake", str "Jake Sisko"),
   (str "Jasad", str "Gul Jasad"),
   (str "Jennifer", str "Jennifer Sisko"),
   (str "Joran Dax (memories)", str "Joran Dax"),
   (str "Juilan Bashir", str "Julian Bashir"),
   (str "Julain Bashir", str "Julian Bashir"),
   (str "Julan Bashir", str "Julian Bashir"),
   (str "Jules Bashir", str "Julian Bashir"),
   (str "Julian Bashier", str "Julian Bashir"),
   (str "Julian Bashir (2371)", str "Julian Bashir"),
   (str "Julian Bashir (Just for plot convenience)", str "Julian Bashir"),
   (str "Julian Bashir (comatose)", str "Julian Bashir"),
   (str "Julian Bashir EMH", str "Emergency Medical Hologram Mark II"),
   (str "Julian Bashir and Mirror-Bashir", str "Julian Bashir"),
   (str "Julian Bashri", str "Julian Bashir"),
   (str "Julian bashir", str "Julian Bashir"),
   (str "Julian", str "Julian Bashir"),
   (str "Julius Eaton", str "Julian Bashir"),
   (str "Kahn", str "Lenara Kahn"),
   (str "Kai Opaka", str "Opaka"),
   (str "Kasidy Yates-Sisko", str "Kasidy Yates"),
   (str "Kasidy", str "Kasidy Yates"),
   (str "Kassidy Yates", str "Kasidy Yates"),
   (str "Kay Eaton", str "Kira Nerys"),
   (str "Keevan 2", str "Keevan"),
   (str "Keiko", str "Keiko O’Brien"),
   (str "Kia Winn", str "Winn Adami"),
   (str "Kira Nerys ()", str "Kira Nerys"),
   (str "Kira Neyrs", str "Kira Nerys"),
   (str "Kira", str "Kira Nerys"),
   (str "Kiry Nerys", str "Kira Nerys"),
   (str "Klingon Chef", str "Kaga"),
   (str "Komahnder Worf", str "Worf"),
   (str "Kukalaka (Stark Trek)", str "Kukalaka"),
   (str "Leela Dax", str "Lela Dax"),
   (str "Leeta (Leeta )", str "Leeta"),
   (str "Legate Damar", str "Corat Damar"),
   (str "Lenara Kahn but its just  in passing", str "Lenara Kahn"),
   (str "Li Nalas but girl", str "Li Nalas"),
   (str "Lieutenant Commander Jadzia Dax", str "Jadzia Dax"),
   (str "Lupasa", str "Lupaza"),
   (str "Lwaxana", str "Lwaxana Troi"),
   (str "MOC", NON_CAST),
   (str "Major Kira", str "Kira Nerys"),
   (str "Martok (emails)", str "Martok"),
   (str "Mavik", str "Mavek"),
   (str "Meru", str "Kira Meru"),
   (str "Miles Obrien", str "Miles O\u0027Brien"),
   (str "Miles", str "Miles O\u0027Brien"),
   (str "Minor rom", NON_CAST),
   (str "Mirror Bariel Antos", str "Bariel Antos"),
   (str "Mirror Benjamin Sisko", str "Benjamin Sisko"),
   (str "Mirror Brunt", str "Brunt"),
   (str "Mirror Elim Garak", str "Elim Garak"),
   (str "Mirror Jadzia Dax", str "Jadzia Dax"),
   (str "Mirror Julian Bashir", str "Julian Bashir"),
   (str "Mirror Kira Nerys", str "Kira Nerys"),
   (str "Mirror Odo", str "Odo"),
   (str "Mirror Quark", str "Quark"),
   (str "Mirror Worf", str "Work"),
   (str "Mirror-Bashir", str "Julian Bashir"),
   (str "Molly (DS9: Children of Time)", str "Molly O\u0027Brien"),
   (str "Molly O’Brien", str "Molly O\u0027Brien"),
   (str "Molly", str "Molly O\u0027Brien"),
   (str "Mora Pel", str "Mora Pol"),
   (str "Mora", str "Mora Pol"),
   (str "Morn only has a cameo fitting of his character", str "Morn"),
   (str "Mäytscher Kira", str "Kira Nerys"),
   (str "Nagus Rom", str "Rom"),
   (str "Naprem", str "Tora Naprem"),
   (str "Natima", str "Natima Lang"),
   (str "Nerys", str "Kira Nerys"),
   (str "Noah", str "Benjamin Sisko"),
   (str "Nurse Jabara", str "Jabara"),
   (str "OC", NON_CAST),
   (str "OFC", NON_CAST),
   (str "OMC", NON_CAST),
   (str "Odo ()", str "Odo"),
   (str "Odo Ital", str "Odo"),
   (str "Odo Mentioned", str "Odo"),
   (str "Odo relationship", str "Odo"),
   (str "Oldo", str "Odo"),
   (str "One-Sided Julian Bashir", str "Julian Bashir"),
   (str "Onesided Pythas Lok", str "Pythas Lok"),
   (str "Opaka Sulan", str "Opaka"),
   (str "Original Bajoran Character", NON_CAST),
   (str "Original Bajoran Female Character", NON_CAST),
   (str "Original Bajoran Male Character", NON_CAST),
   (str "Original Cardassian Character", NON_CAST),
   (str "Original Character(s)", NON_CAST),
   (str "Original Female Character", NON_CAST),
   (str "Original Female Character(s)", NON_CAST),
   (str "Original Male Character", NON_CAST),
   (str "Original Male Character(s)", NON_CAST),
   (str "Other(s)", NON_CAST),
   (str "Others", NON_CAST),
   (str "Owner of the Klingon Restaurant", str "Kaga"),
   (str "Pel (Star Trek: Deep Space Nine)", str "Pel"),
   (str "Pel (past... possibly future?)", str "Pel"),
   (str "Possible Dukat", str "Skrain Dukat"),
   (str "Prophet Damar", str "Corat Damar"),
   (str "Prophet Dukat", str "Skrain Dukat"),
   (str "Prophet Odo", str "Odo"),
   (str "Quar", str "Quark"),
   (str "Quark (  )", str "Quark"),
   (str "Quark ()", str "Quark"),
   (str "Quark (?)", str "Quark"),
   (str "Quark (Star Trek)", str "Quark"),
   (str "Quark (in a sense)", str "Quark"),
   (str "Quark (in spirit)", str "Quark"),
   (str "Quark (you can feel his spirit lingering there)", str "Quark"),
   (str "Quark Math Program", str "Quark"),
   (str "Quark flirting", str "Quark"),
   (str "Reader", NON_CAST),
   (str "Reese (Deep Space Nine The Siege of AR-558)", str "Reese"),
   (str "Rugal", str "Rugal Pa\u0027Dar"),
   (str "Rusot", str "Gul Rusot"),
   (str "Shaakar Edon", str "Shakaar Edon"),
   (str "Shakaar", str "Shakaar Edon"),
   (str "Sisco", str "Benjamin Sisko"),
   (str "Sisko ( )", str "Benjamin Sisko"),
   (str "Sisko the Emissary", str "Benjamin Sisko"),
   (str "Sisko", str "Benjamin Sisko"),
   (str "Sloan", str "Luther Sloan"),
   (str "Sloane", str "Luther Sloan"),
   (str "Smuggler Odo", str "Odo"),
   (str "Tain", str "Enabran Tain"),
   (str "Tentacle Monster", NON_CAST),
   (str "The Diabolical Mr. Garak", str "Elim Garak"),
   (str "The Emissary", str "Benjamin Sisko"),
   (str "The Female Changeling", str "Female Changeling"),
   (str "The Female Founder", str "Female Changeling"),
   (str "The Grand Nagus", str "Zek"),
   (str "The Intendant", str "Kira Nerys"),
   (str "Tora Ziyal (One-Sided)", str "Tora Ziyal"),
   (str "Tora Ziyal (one night stand)", str "Tora Ziyal"),
   (str "Tora Ziyal (only)", str "Tora Ziyal"),
   (str "Torah Naprem", str "Tora Naprem"),
   (str "Toran", str "Tora Naprem"),
   (str "Tschatzia Däcks", str "Jadzia Dax"),
   (str "Tschulien Bäschier", str "Julian Bashir"),
   (str "Vampire!Garak", str "Elim Garak"),
   (str "Vampire!Julian", str "Julian Bashir"),
   (str "Vedek Antos Bareil", str "Bareil Antos"),
   (str "Vedek Bariel", str "Bariel Antos"),
   (str "Vedik Bariel", str "Bariel Antos"),
   (str "Verad Dax", str "Verad"),
   (str "Weyoun 1", str "Weyoun"),
   (str "Weyoun 10", str "Weyoun"),
   (str "Weyoun 2", str "Weyoun"),
   (str "Weyoun 3", str "Weyoun"),
   (str "Weyoun 4", str "Weyoun"),
   (str "Weyoun 5", str "Weyoun"),
   (str "Weyoun 6", str "Weyoun"),
   (str "Weyoun 7", str "Weyoun"),
   (str "Weyoun 8", str "Weyoun"),
   (str "Weyoun 9", str "Weyoun"),
   (str "Weyoun Seven", str "Weyoun"),
   (str "Weyoun6", str "Weyoun"),
   (str "Weyoun7", str "Weyoun"),
   (str "Winn", str "Winn Adami"),
   (str "Worf (In Spirit)", str "Worf"),
   (str "Worf (Star Trek: TNG", str "Worf"),
   (str "Worf (Star Trek:TNG", str "Worf"),
   (str "Worf (Star Trek:TNG/DS9)", str "Worf"),
   (str "Worf (short apparition)", str "Worf"),
   (str "Work", str "Worf"),
   (str "Yates", str "Kasidy Yates"),
   (str "You", NON_CAST),
   (str "Zarale", str "Gul Zarale"),
   (str "Ziyal", str "Tora Ziyal"),
   (str "benjamin sisko", str "Benjamin Sisko"),
   (str "brief mirror!opaka", str "Opaka"),
   (str "dragon!Dukat", str "Skrain Dukat"),
   (str "elim garak", str "Elim Garak"),
   (str "female characters", NON_CAST),
   (str "female founder", str "Female Changeling"),
   (str "female", NON_CAST),
   (str "his wife", NON_CAST),
   (str "implied Bashir", str "Julian Bashir"),
   (str "implied Elim Garak", str "Elim Garak"),
   (str "implied Jadzia Dax", str "Jadzia Dax"),
   (str "implied Jadzia", str "Jadzia Dax"),
   (str "implied Julian Bashir", str "Julian Bashir"),
   (str "intendent kira", str "Kira Nerys"),
   (str "jadzia dax", str "Jadzia Dax"),
   (str "julian bashir", str "Julian Bashir"),
   (str "just Garak really", str "Elim Garak"),
   (str "kelas parmak", str "Kelas Parmak"),
   (str "kilana", str "Kilana"),
   (str "kira nerys", str "Kira Nerys"),
   (str "kukkalakka", str "Kukalaka"),
   (str "male", NON_CAST),
   (str "menion of Rom", str "Rom"),
   (str "mention odo", str "Odo"),
   (str "mention of Julian Bashir", str "Julian Bashir"),
   (str "mirror Jack", str "Jack"),
   (str "mirror Sloan", str "Luther Sloan"),
   (str "mirror!winn because i have A Problem", str "Winn Adami"),
   (str "morn", str "Morn"),
   (str "neurodivergent Julian", str "Julian Bashir"),
   (str "odo solid", str "Odo"),
   (str "odo", str "Odo"),
   (str "other females", NON_CAST),
   (str "other males", NON_CAST),
   (str "possibly  Julian", str "Julian Bashir"),
   (str "pregnant Julian Bashir", str "Julian Bashir"),
   (str "technically Keiko Ishikawa", str "Keiko O\u0027Brien"),
   (str "the (figurative) ghost of Jennifer Sisko", str "Jennifer Sisko"),
   (str "two-sided Julian Bashir", str "Julian Bashir"),
   (str "unknown character", NON_CAST),
   (str "unknown female character", NON_CAST),
   (str "unknown male character", NON_CAST),
   (str "various ocs", NON_CAST),
   (str "various ofcs", NON_CAST),
   (str "vedek bariel", str "Bariel Antos"),
   (str "weyoun 6", str "Weyoun"),
   (str "weyoun", str "Weyoun"),
   (str "with a dash of Garak", str "Elim Garak"),
   (str "with a guest appearance by Elim Garak", str "Elim Garak"),
   (str "zek", str "Zek")]

/-- Python `needle in hay` (substring containment). -/
def isSubstr (needle : Str) : Str → Bool
  | [] => needle.isEmpty
  | c :: t => needle.isPrefixOf (c :: t) || isSubstr needle t

/-- Worker for `replaceAll`; the fuel bounds the number of scan steps
and is set to the length of the string, which suffices because every
step consumes at least one character. -/
def replaceAllAux (old : Str) : Nat → Str → Str
  | _, [] => []
  | 0, s => s
  | Nat.succ fuel, c :: cs =>
    if old.isPrefixOf (c :: cs) && !old.isEmpty then
      replaceAllAux old fuel ((c :: cs).drop old.length)
    else
      c :: replaceAllAux old fuel cs

/-- Python `s.replace(old, '')`: delete every non-overlapping occurrence
of `old`, scanning left to right. -/
def replaceAll (old : Str) (s : Str) : Str :=
  replaceAllAux old s.length s

/-- The code points Python `str.strip()` removes: the ASCII whitespace
and separator controls and the Unicode space separators. -/
def isSpace (c : Nat) : Bool :=
  c == 32 || (9 ≤ c && c ≤ 13) || (28 ≤ c && c ≤ 31) || c == 133 ||
  c == 160 || c == 5760 || (8192 ≤ c && c ≤ 8202) || c == 8232 ||
  c == 8233 || c == 8239 || c == 8287 || c == 12288

/-- Python `s.strip()`: drop leading and trailing whitespace. -/
def stripStr (s : Str) : Str :=
  ((s.dropWhile isSpace).reverse.dropWhile isSpace).reverse

/-- The zap-dict scan at the top of `normal_name`: the first phrase of
`zap_dict` found within the name decides the replacement for the whole
name. -/
def zapLookup (t : Str) : Option Str :=
  (zap_dict.find? (fun p => isSubstr p.1 t)).map (fun p => p.2)

/-- The delete-list pass of `normal_name`: each phrase of `delete_list`
is removed in turn and the text stripped after each removal. -/
def deleteAll (t : Str) : Str :=
  delete_list.foldl (fun acc d => stripStr (replaceAll d acc)) t

/-- The text `normal_name` holds after the delete-list pass and the
synonym-dictionary lookup, just before the known-set check. -/
def cleanup (t : Str) : Str :=
  let t1 := deleteAll t
  match List.lookup t1 synonym_dict with
  | some v => v
  | none => t1

/-- Method `Ds9cast.normal_name`, output value only (the `unseen_set` side
effect is modelled by `unseenAdd`). -/
def normal_name (t : Str) : Str :=
  match zapLookup t with
  | some v => v
  | none =>
    let t2 := cleanup t
    if t2 ∈ known_set then t2 else NON_CAST

/-- The element `normal_name` adds to `unseen_set` on input `t`
(`none` when nothing is recorded). -/
def unseenAdd (t : Str) : Option Str :=
  match zapLookup t with
  | some _ => none
  | none =>
    let t2 := cleanup t
    if t2 ∈ known_set then none else some t2


/-- Python `'&'`/`'/'`, the recognised pair operators. -/
def isOp (c : Nat) : Bool := c == 47 || c == 38

/-- Python `re.split('[/&]', s)`: cut the string at every operator
character, keeping empty segments. -/
def splitOps : Str → List Str
  | [] => [[]]
  | c :: cs =>
    if isOp c then [] :: splitOps cs
    else
      match splitOps cs with
      | h :: t => (c :: h) :: t
      | [] => [[c]]

/-- Python string `<=`: lexicographic order on code points. -/
def strLe : Str → Str → Bool
  | [], _ => true
  | _ :: _, [] => false
  | a :: as, b :: bs => a < b || (a == b && strLe as bs)

/-- One step of insertion sort with respect to `strLe`. -/
def insertSorted (x : Str) : List Str → List Str
  | [] => [x]
  | y :: ys => if strLe x y then x :: y :: ys else y :: insertSorted x ys

/-- Python `list.sort()` on strings: the result is the unique sorted
arrangement of the multiset, so insertion sort is a faithful model. -/
def sortStrs (l : List Str) : List Str := l.foldr insertSorted []

/-- Python `set.add`: sets are modelled as duplicate-free lists in
insertion order. -/
def insertNew (l : List Str) (x : Str) : List Str :=
  if x ∈ l then l else l ++ [x]

/-- Method `Ds9cast.normal_list`: normalise every name, collect the results in
a set, and return them sorted.  `list(set)` enumerates in unspecified
order, which the final sort cancels, so the model sorts the
duplicate-free list directly. -/
def normal_list (name_list : List Str) : List Str :=
  sortStrs (name_list.foldl (fun s name => insertNew s (normal_name name)) [])

/-- Method `Ds9cast.normal_pair`.  The style (`38` is `&`, `47` is `/`) is
detected on the untouched input, exactly as `pair.find` runs before the
split; the source then assigns `pair_l[0]` and `pair_l[1]` after
`re.split`, which raises `IndexError` when the split yields fewer than
two pieces — that exception is modelled as `none`.  `pair_l.sort()`
sorts the whole split list, and the output is formatted from its first
two entries with the detected operator, or is the untouched input for
the operator-free style. -/
def normal_pair (pair : Str) : Option Str :=
  match (splitOps pair).map stripStr with
  | p0 :: p1 :: rest =>
    match sortStrs (normal_name p0 :: normal_name p1 :: rest) with
    | a :: b :: _ =>
      if 38 ∈ pair then some (a ++ str " & " ++ b)
      else if 47 ∈ pair then some (a ++ str "/" ++ b)
      else some pair
    | _ => none
  | _ => none

/-- The update `normal_name` performs on the `unseen_set` state. -/
def stepUnseen (l : List Str) (t : Str) : List Str :=
  match unseenAdd t with
  | none => l
  | some c => insertNew l c

/-- The `unseen_set` accumulated by a sequence of `normal_name` calls,
starting from the empty set built in `__init__`. -/
def runUnseen (inputs : List Str) : List Str := inputs.foldl stepUnseen []

/-- Method `Ds9cast.unseen`: returns the accumulated set unchanged. -/
def unseen (l : List Str) : List Str := l

end Ds9

namespace Ds9

/-- Every value of `zap_dict` is the `NON_CAST` sentinel. -/
theorem zapLookup_eq_nonCast {t v : Str} (h : zapLookup t = some v) :
    v = NON_CAST := by
  unfold zapLookup at h
  cases hf : zap_dict.find? (fun p => isSubstr p.1 t) with
  | none => rw [hf] at h; simp at h
  | some p =>
    rw [hf] at h
    simp only [Option.map_some', Option.some.injEq] at h
    have hm := List.mem_of_find?_eq_some hf
    subst h
    simp only [zap_dict, List.mem_cons, List.not_mem_nil, or_false] at hm
    rcases hm with h | h | h <;> rw [h]

/-- When the zap scan hits, `normal_name` returns its value at once. -/
theorem normal_name_of_zap {t v : Str} (h : zapLookup t = some v) :
    normal_name t = v := by
  unfold normal_name
  rw [h]

/-- When the zap scan hits, nothing is recorded as unseen. -/
theorem unseenAdd_of_zap {t v : Str} (h : zapLookup t = some v) :
    unseenAdd t = none := by
  unfold unseenAdd
  rw [h]

/-- When the zap scan misses, `normal_name` is decided by the known-set
test on the cleaned text. -/
theorem normal_name_of_no_zap {t : Str} (h : zapLookup t = none) :
    normal_name t = if cleanup t ∈ known_set then cleanup t else NON_CAST := by
  unfold normal_name
  rw [h]

/-- The map `normal_name` sends every input into `known_set ∪ {NON_CAST}`. -/
theorem normal_name_mem_or (t : Str) :
    normal_name t ∈ known_set ∨ normal_name t = NON_CAST := by
  cases h : zapLookup t with
  | some v =>
    right
    rw [normal_name_of_zap h, zapLookup_eq_nonCast h]
  | none =>
    rw [normal_name_of_no_zap h]
    by_cases hk : cleanup t ∈ known_set
    · left; rwa [if_pos hk]
    · right; rw [if_neg hk]

/-- A recorded unseen text is the cleaned text, the zap scan missed,
and the cleaned text is not a cast member. -/
theorem unseenAdd_some {t c : Str} (h : unseenAdd t = some c) :
    zapLookup t = none ∧ c = cleanup t ∧ cleanup t ∉ known_set := by
  unfold unseenAdd at h
  cases hz : zapLookup t with
  | some v => rw [hz] at h; simp at h
  | none =>
    rw [hz] at h
    by_cases hk : cleanup t ∈ known_set
    · rw [if_pos hk] at h; simp at h
    · rw [if_neg hk] at h
      simp only [Option.some.injEq] at h
      exact ⟨rfl, h.symm, hk⟩

end Ds9

open Ds9

/-- C1: every output of `normal_name` is a `known_set` member or the
`NON_CAST` sentinel; in particular the empty string, which survives the
delete pass empty and misses the known set, is sent to `NON_CAST`. -/
theorem normal_name_range :
    (∀ t : Str, normal_name t ∈ known_set ∨ normal_name t = NON_CAST) ∧
    normal_name [] = NON_CAST :=
  ⟨normal_name_mem_or, by decide⟩

/-- C2: `normal_pair` on input containing neither `&` nor `/` does not
return the whitespace-processed input: the split yields a single piece
and the `pair_l[1]` assignment raises `IndexError` (modelled as
`none`), here evaluated at the operator-free inputs `"Morn"` and `""`. -/
theorem normal_pair_no_operator_crashes :
    normal_pair (str "Morn") = none ∧ normal_pair (str "") = none := by
  exact ⟨by decide, by decide⟩

/-- C3: `"Mirror Kira Nerys"` is not in `known_set`, and `normal_name`
does not return it unchanged: the generic `"Mirror "` deletion rule
reduces it to `"Kira Nerys"`, contrary to the header comment of the
source file, which says Mirror Kira Nerys is a distinct character. -/
theorem mirror_kira_collapses :
    normal_name (str "Mirror Kira Nerys") = str "Kira Nerys" ∧
    str "Mirror Kira Nerys" ∉ known_set := by
  exact ⟨by decide, by decide⟩

/-- C4: the zap-dict override short-circuits `normal_name` before the
delete pass, and `"Original Character (background)"` resolves through it
to `NON_CAST` even though `"(background)"` is a delete-list entry. -/
theorem zap_short_circuit :
    (∀ t v : Str, zapLookup t = some v → normal_name t = v) ∧
    zapLookup (str "Original Character (background)") = some NON_CAST ∧
    normal_name (str "Original Character (background)") = NON_CAST ∧
    str "(background)" ∈ delete_list := by
  refine ⟨?_, by decide, by decide, by decide⟩
  intro t v h
  exact normal_name_of_zap h

/-- Witness for `zap_short_circuit` at its concrete input. -/
theorem zap_short_circuit_witness :
    normal_name (str "Original Character (Background) extras") = NON_CAST :=
  zap_short_circuit.1 _ _ (by decide)

/-- C10: `normal_name` applied to the sentinel `'non-cast'` itself
returns the sentinel but records `'non-cast'` in the unseen set, while
an input resolved by the zap override records nothing. -/
theorem non_cast_self_unseen :
    normal_name NON_CAST = NON_CAST ∧
    unseenAdd NON_CAST = some NON_CAST ∧
    (∀ t v : Str, zapLookup t = some v → unseenAdd t = none) ∧
    unseenAdd (str "Original Character (background)") = none := by
  refine ⟨by decide, by decide, ?_, by decide⟩
  intro t v h
  exact unseenAdd_of_zap h

/-- Witness for `non_cast_self_unseen` at a concrete zap-resolved
input. -/
theorem non_cast_self_unseen_witness :
    unseenAdd (str "an OC of mine") = none :=
  non_cast_self_unseen.2.2.1 _ NON_CAST (by decide)

namespace Ds9

/-- The set insertion `insertNew` keeps every element already present. -/
theorem mem_insertNew_of_mem {l : List Str} {a x : Str} (h : a ∈ l) :
    a ∈ insertNew l x := by
  unfold insertNew
  by_cases hx : x ∈ l
  · rwa [if_pos hx]
  · rw [if_neg hx]
    exact List.mem_append_left _ h

/-- The set insertion `insertNew` contains the inserted element. -/
theorem mem_insertNew_self (l : List Str) (x : Str) : x ∈ insertNew l x := by
  unfold insertNew
  by_cases hx : x ∈ l
  · rwa [if_pos hx]
  · rw [if_neg hx]
    exact List.mem_append_right _ (List.mem_singleton.mpr rfl)

/-- Membership in `insertNew`. -/
theorem mem_insertNew {l : List Str} {a x : Str} :
    a ∈ insertNew l x ↔ a ∈ l ∨ a = x := by
  constructor
  · intro h
    unfold insertNew at h
    by_cases hx : x ∈ l
    · rw [if_pos hx] at h; exact Or.inl h
    · rw [if_neg hx] at h
      rcases List.mem_append.mp h with h | h
      · exact Or.inl h
      · exact Or.inr (List.mem_singleton.mp h)
  · rintro (h | rfl)
    · exact mem_insertNew_of_mem h
    · exact mem_insertNew_self l a

/-- The set insertion `insertNew` preserves freedom from duplicates. -/
theorem nodup_insertNew {l : List Str} (h : l.Nodup) (x : Str) :
    (insertNew l x).Nodup := by
  unfold insertNew
  by_cases hx : x ∈ l
  · rwa [if_pos hx]
  · rw [if_neg hx]
    exact List.Nodup.append h (List.nodup_singleton x)
      (List.disjoint_singleton.mpr hx)

/-- One `normal_name` call only grows the unseen set, by appending. -/
theorem stepUnseen_append (l : List Str) (u : Str) :
    ∃ m, stepUnseen l u = l ++ m := by
  unfold stepUnseen
  cases unseenAdd u with
  | none => exact ⟨[], (List.append_nil l).symm⟩
  | some c =>
    dsimp only
    unfold insertNew
    by_cases hc : c ∈ l
    · rw [if_pos hc]; exact ⟨[], (List.append_nil l).symm⟩
    · rw [if_neg hc]; exact ⟨[c], rfl⟩

/-- The update `stepUnseen` keeps every element already present. -/
theorem mem_stepUnseen_of_mem {l : List Str} {a : Str} (h : a ∈ l) (u : Str) :
    a ∈ stepUnseen l u := by
  unfold stepUnseen
  cases unseenAdd u with
  | none => exact h
  | some c => exact mem_insertNew_of_mem h

/-- The update `stepUnseen` records the unseen text of its input. -/
theorem mem_stepUnseen_self {l : List Str} {u c : Str}
    (h : unseenAdd u = some c) : c ∈ stepUnseen l u := by
  unfold stepUnseen
  rw [h]
  exact mem_insertNew_self l c

/-- The update `stepUnseen` preserves freedom from duplicates. -/
theorem nodup_stepUnseen {l : List Str} (h : l.Nodup) (u : Str) :
    (stepUnseen l u).Nodup := by
  unfold stepUnseen
  cases unseenAdd u with
  | none => exact h
  | some c => exact nodup_insertNew h c

/-- Elements survive a whole fold of `stepUnseen`. -/
theorem mem_foldl_stepUnseen_of_mem {l : List Str} {a : Str} (h : a ∈ l)
    (inputs : List Str) : a ∈ inputs.foldl stepUnseen l := by
  induction inputs generalizing l with
  | nil => exact h
  | cons u us ih => exact ih (mem_stepUnseen_of_mem h u)

/-- A fold of `stepUnseen` stays duplicate-free. -/
theorem nodup_foldl_stepUnseen {l : List Str} (h : l.Nodup)
    (inputs : List Str) : (inputs.foldl stepUnseen l).Nodup := by
  induction inputs generalizing l with
  | nil => exact h
  | cons u us ih => exact ih (nodup_stepUnseen h u)

/-- In a duplicate-free list every member is counted once. -/
theorem count_eq_one_nodup {l : List Str} {a : Str} (hn : l.Nodup)
    (ha : a ∈ l) : l.count a = 1 := by
  induction l with
  | nil => cases ha
  | cons x xs ih =>
    have hx := List.nodup_cons.mp hn
    rcases List.mem_cons.mp ha with rfl | ha
    · rw [List.count_cons_self, List.count_eq_zero.mpr hx.1]
    · have hne : a ≠ x := fun h => hx.1 (h ▸ ha)
      rw [List.count_cons_of_ne hne]
      exact ih hx.2 ha

/-- Any submitted input with an unseen text puts it into the fold. -/
theorem mem_foldl_stepUnseen {l inputs : List Str} {t c : Str}
    (ht : t ∈ inputs) (h : unseenAdd t = some c) :
    c ∈ inputs.foldl stepUnseen l := by
  induction inputs generalizing l with
  | nil => cases ht
  | cons u us ih =>
    rcases List.mem_cons.mp ht with rfl | ht
    · exact mem_foldl_stepUnseen_of_mem (mem_stepUnseen_self h) us
    · exact ih ht

end Ds9

/-- C7: a submitted name whose cleaned text misses the known set makes
`normal_name` return `NON_CAST` and appear in the unseen set exactly
once however often it was submitted; `unseen` reads the set without
changing it, and each call only appends to the set. -/
theorem unseen_once :
    ∀ (inputs : List Str) (t c : Str), t ∈ inputs → unseenAdd t = some c →
      normal_name t = NON_CAST ∧
      (runUnseen inputs).count c = 1 ∧
      unseen (runUnseen inputs) = runUnseen inputs ∧
      ∀ (l : List Str) (u : Str), ∃ m, stepUnseen l u = l ++ m := by
  intro inputs t c ht hc
  obtain ⟨hz, hcc, hk⟩ := unseenAdd_some hc
  refine ⟨?_, ?_, rfl, stepUnseen_append⟩
  · rw [normal_name_of_no_zap hz, if_neg hk]
  · exact count_eq_one_nodup
      (nodup_foldl_stepUnseen List.nodup_nil inputs)
      (mem_foldl_stepUnseen ht hc)

/-- Witness for `unseen_once`: the same unknown name submitted twice is
reported once. -/
theorem unseen_once_witness :
    normal_name (str "Totally Unknown Person") = NON_CAST ∧
    (runUnseen [str "Totally Unknown Person", str "Totally Unknown Person"]).count
      (str "Totally Unknown Person") = 1 ∧
    unseen (runUnseen [str "Totally Unknown Person", str "Totally Unknown Person"]) =
      runUnseen [str "Totally Unknown Person", str "Totally Unknown Person"] ∧
    ∀ (l : List Str) (u : Str), ∃ m, stepUnseen l u = l ++ m :=
  unseen_once _ _ _ (by decide) (by decide)

namespace Ds9

/-- The order `strLe` on two cons cells, unfolded. -/
theorem strLe_cons (x y : Nat) (xs ys : Str) :
    strLe (x :: xs) (y :: ys) = (decide (x < y) || (x == y && strLe xs ys)) :=
  rfl

/-- The order `strLe` is total. -/
theorem strLe_total : ∀ (a b : Str), strLe a b = true ∨ strLe b a = true := by
  intro a
  induction a with
  | nil => intro b; left; rfl
  | cons x xs ih =>
    intro b
    cases b with
    | nil => right; rfl
    | cons y ys =>
      simp only [strLe_cons, Bool.or_eq_true, Bool.and_eq_true,
        decide_eq_true_eq, beq_iff_eq]
      rcases Nat.lt_trichotomy x y with h | h | h
      · left; left; exact h
      · subst h
        rcases ih ys with h2 | h2
        · left; right; exact ⟨rfl, h2⟩
        · right; right; exact ⟨rfl, h2⟩
      · right; left; exact h

/-- The order `strLe` is antisymmetric. -/
theorem strLe_antisymm : ∀ {a b : Str},
    strLe a b = true → strLe b a = true → a = b := by
  intro a
  induction a with
  | nil =>
    intro b _ hba
    cases b with
    | nil => rfl
    | cons y ys => simp [strLe] at hba
  | cons x xs ih =>
    intro b hab hba
    cases b with
    | nil => simp [strLe] at hab
    | cons y ys =>
      simp only [strLe_cons, Bool.or_eq_true, Bool.and_eq_true,
        decide_eq_true_eq, beq_iff_eq] at hab hba
      have hxy : x = y := by
        rcases hab with h | ⟨h, _⟩
        · rcases hba with h2 | ⟨h2, _⟩
          · omega
          · omega
        · exact h
      subst hxy
      have h1 : strLe xs ys = true := by
        rcases hab with h | ⟨_, h⟩
        · omega
        · exact h
      have h2 : strLe ys xs = true := by
        rcases hba with h | ⟨_, h⟩
        · omega
        · exact h
      rw [ih h1 h2]

/-- The order `strLe` is transitive. -/
theorem strLe_trans : ∀ {a b c : Str},
    strLe a b = true → strLe b c = true → strLe a c = true := by
  intro a
  induction a with
  | nil => intro b c _ _; rfl
  | cons x xs ih =>
    intro b c hab hbc
    cases b with
    | nil => simp [strLe] at hab
    | cons y ys =>
      cases c with
      | nil => simp [strLe] at hbc
      | cons z zs =>
        simp only [strLe_cons, Bool.or_eq_true, Bool.and_eq_true,
          decide_eq_true_eq, beq_iff_eq] at hab hbc ⊢
        rcases hab with h1 | ⟨h1, h1s⟩
        · rcases hbc with h2 | ⟨h2, _⟩
          · left; omega
          · left; omega
        · rcases hbc with h2 | ⟨h2, h2s⟩
          · left; omega
          · right; exact ⟨by omega, ih h1s h2s⟩

/-- The order `strLe` as a relation. -/
def strLeP (a b : Str) : Prop := strLe a b = true

instance : IsAntisymm Str strLeP := ⟨fun _ _ => strLe_antisymm⟩

/-- Membership in an insertion-sort step. -/
theorem mem_insertSorted {z x : Str} :
    ∀ {l : List Str}, z ∈ insertSorted x l ↔ z = x ∨ z ∈ l := by
  intro l
  induction l with
  | nil => simp [insertSorted]
  | cons y ys ih =>
    unfold insertSorted
    by_cases h : strLe x y = true
    · rw [if_pos h]
      simp [List.mem_cons]
    · rw [if_neg h]
      simp only [List.mem_cons, ih]
      tauto

/-- An insertion-sort step is a permutation of pushing in front. -/
theorem perm_insertSorted (x : Str) :
    ∀ (l : List Str), List.Perm (insertSorted x l) (x :: l) := by
  intro l
  induction l with
  | nil => exact List.Perm.refl _
  | cons y ys ih =>
    unfold insertSorted
    by_cases h : strLe x y = true
    · rw [if_pos h]
    · rw [if_neg h]
      exact (ih.cons y).trans (List.Perm.swap x y ys)

/-- An insertion-sort step preserves sortedness. -/
theorem sorted_insertSorted {x : Str} :
    ∀ {l : List Str}, l.Sorted strLeP → (insertSorted x l).Sorted strLeP := by
  intro l
  induction l with
  | nil => intro _; simp [insertSorted, List.Sorted]
  | cons y ys ih =>
    intro hs
    obtain ⟨hy, hys⟩ := List.sorted_cons.mp hs
    unfold insertSorted
    by_cases h : strLe x y = true
    · rw [if_pos h]
      refine List.sorted_cons.mpr ⟨?_, hs⟩
      intro b hb
      rcases List.mem_cons.mp hb with rfl | hb
      · exact h
      · exact strLe_trans h (hy b hb)
    · rw [if_neg h]
      refine List.sorted_cons.mpr ⟨?_, ih hys⟩
      intro b hb
      rcases mem_insertSorted.mp hb with rfl | hb
      · rcases strLe_total b y with h2 | h2
        · exact absurd h2 h
        · exact h2
      · exact hy b hb

/-- The sort `sortStrs` permutes its input. -/
theorem sortStrs_perm : ∀ (l : List Str), List.Perm (sortStrs l) l := by
  intro l
  induction l with
  | nil => exact List.Perm.refl _
  | cons x xs ih => exact (perm_insertSorted x _).trans (ih.cons x)

/-- The sort `sortStrs` sorts. -/
theorem sortStrs_sorted : ∀ (l : List Str), (sortStrs l).Sorted strLeP := by
  intro l
  induction l with
  | nil => simp [sortStrs, List.Sorted]
  | cons x xs ih => exact sorted_insertSorted ih

/-- Sorting is invariant under permutation of the input. -/
theorem sortStrs_eq_of_perm {l₁ l₂ : List Str} (h : List.Perm l₁ l₂) :
    sortStrs l₁ = sortStrs l₂ :=
  List.eq_of_perm_of_sorted
    ((sortStrs_perm l₁).trans (h.trans (sortStrs_perm l₂).symm))
    (sortStrs_sorted l₁) (sortStrs_sorted l₂)

/-- Membership in the set `normal_list` accumulates. -/
theorem mem_normfold {a : Str} : ∀ {inputs acc : List Str},
    (a ∈ inputs.foldl (fun s name => insertNew s (normal_name name)) acc ↔
      a ∈ acc ∨ ∃ x ∈ inputs, normal_name x = a) := by
  intro inputs
  induction inputs with
  | nil => intro acc; simp
  | cons u us ih =>
    intro acc
    simp only [List.foldl_cons, ih, mem_insertNew, List.mem_cons]
    constructor
    · rintro (⟨h | h⟩ | ⟨x, hx, e⟩)
      · exact Or.inl h
      · exact Or.inr ⟨u, Or.inl rfl, h.symm⟩
      · exact Or.inr ⟨x, Or.inr hx, e⟩
    · rintro (h | ⟨x, rfl | hx, e⟩)
      · exact Or.inl (Or.inl h)
      · exact Or.inl (Or.inr e.symm)
      · exact Or.inr ⟨x, hx, e⟩

/-- The set `normal_list` accumulates is duplicate-free. -/
theorem nodup_normfold : ∀ {inputs acc : List Str}, acc.Nodup →
    (inputs.foldl (fun s name => insertNew s (normal_name name)) acc).Nodup := by
  intro inputs
  induction inputs with
  | nil => intro acc h; exact h
  | cons u us ih => intro acc h; exact ih (nodup_insertNew h _)

end Ds9

/-- C8: `normal_list` returns the normalised names sorted by the
lexicographic code-point order and without duplicates; its members are
exactly the `normal_name` images of the input, so the result only
depends on the set of input names, not their order or multiplicity. -/
theorem normal_list_canonical :
    ∀ l : List Str,
      (normal_list l).Sorted strLeP ∧
      (normal_list l).Nodup ∧
      (∀ a, a ∈ normal_list l ↔ ∃ x ∈ l, normal_name x = a) ∧
      ∀ l' : List Str, (∀ a, a ∈ l ↔ a ∈ l') → normal_list l = normal_list l' := by
  intro l
  refine ⟨sortStrs_sorted _, ?_, ?_, ?_⟩
  · exact ((sortStrs_perm _).nodup_iff).mpr (nodup_normfold List.nodup_nil)
  · intro a
    rw [normal_list, (sortStrs_perm _).mem_iff, mem_normfold]
    simp
  · intro l' hm
    apply sortStrs_eq_of_perm
    refine (List.perm_ext_iff_of_nodup (nodup_normfold List.nodup_nil)
      (nodup_normfold List.nodup_nil)).mpr ?_
    intro a
    rw [mem_normfold, mem_normfold]
    simp only [List.not_mem_nil, false_or]
    constructor
    · rintro ⟨x, hx, e⟩; exact ⟨x, (hm x).mp hx, e⟩
    · rintro ⟨x, hx, e⟩; exact ⟨x, (hm x).mpr hx, e⟩

/-- Witness for `normal_list_canonical`: reordering and repeating
inputs does not change the result. -/
theorem normal_list_canonical_witness :
    normal_list [str "Worf", str "Dukat", str "Dukat"] =
      normal_list [str "Dukat", str "Worf"] :=
  (normal_list_canonical _).2.2.2 _ (by
    intro a
    simp only [List.mem_cons, List.not_mem_nil, or_false]
    tauto)

/-- C9: the three Dukat variants normalise to the single canonical name
`"Skrain Dukat"`. -/
theorem normal_list_dukat :
    normal_list [str "Dukat", str "Gul Dukat", str "Skrain Dukat"] =
      [str "Skrain Dukat"] := by
  decide

namespace Ds9

/-- An operator-free string is one split segment. -/
theorem splitOps_no_op : ∀ {A : Str}, (∀ c ∈ A, isOp c = false) →
    splitOps A = [A] := by
  intro A
  induction A with
  | nil => intro _; rfl
  | cons c cs ih =>
    intro h
    unfold splitOps
    rw [if_neg (by rw [h c (List.mem_cons_self c cs)]; simp)]
    rw [ih (fun d hd => h d (List.mem_cons_of_mem c hd))]

/-- Splitting around a single operator gives the two sides. -/
theorem splitOps_pair {op : Nat} (hop : isOp op = true) :
    ∀ {A B : Str}, (∀ c ∈ A, isOp c = false) → (∀ c ∈ B, isOp c = false) →
    splitOps (A ++ op :: B) = [A, B] := by
  intro A
  induction A with
  | nil =>
    intro B _ hB
    show splitOps (op :: B) = [[], B]
    unfold splitOps
    rw [if_pos hop, splitOps_no_op hB]
  | cons c cs ih =>
    intro B hA hB
    show splitOps (c :: (cs ++ op :: B)) = [c :: cs, B]
    unfold splitOps
    rw [if_neg (by rw [hA c (List.mem_cons_self c cs)]; simp)]
    rw [ih (fun d hd => hA d (List.mem_cons_of_mem c hd)) hB]

/-- No cast name and not the sentinel contains a pair operator. -/
theorem known_no_op : ∀ x ∈ known_set, ∀ c ∈ x, isOp c = false := by
  decide

/-- Outputs of `normal_name` never contain a pair operator. -/
theorem no_op_in_normal (t : Str) : ∀ c ∈ normal_name t, isOp c = false := by
  rcases normal_name_mem_or t with h | h
  · exact known_no_op _ h
  · rw [h]; decide

/-- Evaluating `normal_pair` on a one-`&` input, exposed up to the sort. -/
theorem normal_pair_amp {A B : Str} (hA : ∀ c ∈ A, isOp c = false)
    (hB : ∀ c ∈ B, isOp c = false) :
    ∃ a b, sortStrs [normal_name (stripStr A), normal_name (stripStr B)] = [a, b] ∧
      normal_pair (A ++ 38 :: B) = some (a ++ str " & " ++ b) := by
  have hlen : (sortStrs [normal_name (stripStr A), normal_name (stripStr B)]).length = 2 :=
    (sortStrs_perm _).length_eq
  obtain ⟨a, b, hab⟩ := List.length_eq_two.mp hlen
  refine ⟨a, b, hab, ?_⟩
  unfold normal_pair
  rw [splitOps_pair (by decide) hA hB]
  dsimp only [List.map]
  rw [hab]
  dsimp only
  rw [if_pos (List.mem_append_right A (List.mem_cons_self 38 B))]

/-- Evaluating `normal_pair` on a one-`/` input, exposed up to the sort. -/
theorem normal_pair_slash {A B : Str} (hA : ∀ c ∈ A, isOp c = false)
    (hB : ∀ c ∈ B, isOp c = false) :
    ∃ a b, sortStrs [normal_name (stripStr A), normal_name (stripStr B)] = [a, b] ∧
      normal_pair (A ++ 47 :: B) = some (a ++ str "/" ++ b) := by
  have hlen : (sortStrs [normal_name (stripStr A), normal_name (stripStr B)]).length = 2 :=
    (sortStrs_perm _).length_eq
  obtain ⟨a, b, hab⟩ := List.length_eq_two.mp hlen
  refine ⟨a, b, hab, ?_⟩
  unfold normal_pair
  rw [splitOps_pair (by decide) hA hB]
  dsimp only [List.map]
  rw [hab]
  dsimp only
  have h38 : (38 : Nat) ∉ A ++ 47 :: B := by
    intro h
    rcases List.mem_append.mp h with h | h
    · have := hA 38 h; simp [isOp] at this
    · rcases List.mem_cons.mp h with h | h
      · omega
      · have := hB 38 h; simp [isOp] at this
  rw [if_neg h38, if_pos (List.mem_append_right A (List.mem_cons_self 47 B))]

/-- The two sides sort identically whichever came first. -/
theorem sortStrs_comm (n0 n1 : Str) :
    sortStrs [n0, n1] = sortStrs [n1, n0] :=
  sortStrs_eq_of_perm (List.Perm.swap n1 n0 [])

end Ds9

/-- C5: for operator-free names `A` and `B`, `normal_pair` is symmetric
in the two sides of a single `&` (code 38) or `/` (code 47), and the
result keeps the operator found in the input, never the other one. -/
theorem normal_pair_symmetry :
    ∀ A B : Str, (∀ c ∈ A, isOp c = false) → (∀ c ∈ B, isOp c = false) →
    (∃ r, normal_pair (A ++ str "&" ++ B) = some r ∧
          normal_pair (B ++ str "&" ++ A) = some r ∧ 38 ∈ r ∧ 47 ∉ r) ∧
    (∃ r, normal_pair (A ++ str "/" ++ B) = some r ∧
          normal_pair (B ++ str "/" ++ A) = some r ∧ 47 ∈ r ∧ 38 ∉ r) := by
  intro A B hA hB
  have hand : ∀ X Y : Str, X ++ str "&" ++ Y = X ++ 38 :: Y := by
    intro X Y
    rw [List.append_assoc]
    rfl
  have hsl : ∀ X Y : Str, X ++ str "/" ++ Y = X ++ 47 :: Y := by
    intro X Y
    rw [List.append_assoc]
    rfl
  have hmem : ∀ {a b z : Str},
      sortStrs [normal_name (stripStr A), normal_name (stripStr B)] = [a, b] →
      (z = a ∨ z = b) → ∀ c ∈ z, isOp c = false := by
    intro a b z hab hz c hc
    have hzmem : z ∈ [normal_name (stripStr A), normal_name (stripStr B)] := by
      refine ((sortStrs_perm _).mem_iff).mp ?_
      rw [hab]
      rcases hz with rfl | rfl <;> simp
    rcases List.mem_cons.mp hzmem with rfl | hzmem
    · exact no_op_in_normal _ c hc
    · rcases List.mem_cons.mp hzmem with rfl | hzmem
      · exact no_op_in_normal _ c hc
      · cases hzmem
  constructor
  · obtain ⟨a, b, hab, e1⟩ := normal_pair_amp hA hB
    obtain ⟨a', b', hab', e2⟩ := normal_pair_amp hB hA
    rw [sortStrs_comm, hab] at hab'
    obtain ⟨ha, hb⟩ : a' = a ∧ b' = b := by
      have h1 := hab'.symm
      simp only [List.cons.injEq, and_true] at h1
      exact ⟨h1.1, h1.2⟩
    rw [ha, hb] at e2
    refine ⟨a ++ str " & " ++ b, by rw [hand]; exact e1, by rw [hand]; exact e2, ?_, ?_⟩
    · exact List.mem_append_left _ (List.mem_append_right _ (by decide))
    · intro h
      rcases List.mem_append.mp h with h | h
      · rcases List.mem_append.mp h with h | h
        · have := hmem hab (Or.inl rfl) 47 h; simp [isOp] at this
        · revert h; decide
      · have := hmem hab (Or.inr rfl) 47 h; simp [isOp] at this
  · obtain ⟨a, b, hab, e1⟩ := normal_pair_slash hA hB
    obtain ⟨a', b', hab', e2⟩ := normal_pair_slash hB hA
    rw [sortStrs_comm, hab] at hab'
    obtain ⟨ha, hb⟩ : a' = a ∧ b' = b := by
      have h1 := hab'.symm
      simp only [List.cons.injEq, and_true] at h1
      exact ⟨h1.1, h1.2⟩
    rw [ha, hb] at e2
    refine ⟨a ++ str "/" ++ b, by rw [hsl]; exact e1, by rw [hsl]; exact e2, ?_, ?_⟩
    · exact List.mem_append_left _ (List.mem_append_right _ (by decide))
    · intro h
      rcases List.mem_append.mp h with h | h
      · rcases List.mem_append.mp h with h | h
        · have := hmem hab (Or.inl rfl) 38 h; simp [isOp] at this
        · revert h; decide
      · have := hmem hab (Or.inr rfl) 38 h; simp [isOp] at this

/-- Witness for `normal_pair_symmetry` at two concrete names. -/
theorem normal_pair_symmetry_witness :
    (∃ r, normal_pair (str "Dukat" ++ str "&" ++ str "Worf") = some r ∧
          normal_pair (str "Worf" ++ str "&" ++ str "Dukat") = some r ∧
          38 ∈ r ∧ 47 ∉ r) ∧
    (∃ r, normal_pair (str "Dukat" ++ str "/" ++ str "Worf") = some r ∧
          normal_pair (str "Worf" ++ str "/" ++ str "Dukat") = some r ∧
          47 ∈ r ∧ 38 ∉ r) :=
  normal_pair_symmetry (str "Dukat") (str "Worf") (by decide) (by decide)

namespace Ds9

/-- Neither end of the string is whitespace. -/
def noEdgeSpace (x : Str) : Bool :=
  (match x with
   | [] => true
   | c :: _ => !isSpace c) &&
  (match x.reverse with
   | [] => true
   | c :: _ => !isSpace c)

/-- A sufficient scan for `normal_name x = x`: no zap phrase occurs in
`x`, no delete phrase occurs in `x`, `x` has no edge whitespace, and
the synonym dictionary does not rename `x`. -/
def fixCheck (x : Str) : Bool :=
  zap_dict.all (fun p => !isSubstr p.1 x) &&
  delete_list.all (fun d => !isSubstr d x) &&
  noEdgeSpace x &&
  (match List.lookup x synonym_dict with
   | none => true
   | some v => v == x)

/-- Replacing a phrase that does not occur changes nothing. -/
theorem replaceAllAux_no_occ {old : Str} : ∀ (fuel : Nat) {s : Str},
    isSubstr old s = false → replaceAllAux old fuel s = s := by
  intro fuel
  induction fuel with
  | zero => intro s _; cases s <;> rfl
  | succ f ih =>
    intro s h
    cases s with
    | nil => rfl
    | cons c cs =>
      unfold isSubstr at h
      rw [Bool.or_eq_false_iff] at h
      unfold replaceAllAux
      rw [h.1, Bool.false_and, if_neg (by simp)]
      rw [ih h.2]

/-- Replacing a phrase that does not occur changes nothing. -/
theorem replaceAll_no_occ {old s : Str} (h : isSubstr old s = false) :
    replaceAll old s = s :=
  replaceAllAux_no_occ _ h

/-- Stripping a string with no edge whitespace changes nothing. -/
theorem stripStr_no_edge {x : Str} (h : noEdgeSpace x = true) :
    stripStr x = x := by
  unfold noEdgeSpace at h
  rw [Bool.and_eq_true] at h
  obtain ⟨h1, h2⟩ := h
  unfold stripStr
  have e1 : x.dropWhile isSpace = x := by
    cases x with
    | nil => rfl
    | cons c t =>
      simp only [Bool.not_eq_true'] at h1
      rw [List.dropWhile_cons, if_neg (by simp [h1])]
  rw [e1]
  have e2 : x.reverse.dropWhile isSpace = x.reverse := by
    cases hr : x.reverse with
    | nil => rfl
    | cons c t =>
      rw [hr] at h2
      simp only [Bool.not_eq_true'] at h2
      rw [List.dropWhile_cons, if_neg (by simp [h2])]
  rw [e2, List.reverse_reverse]

/-- A fold of delete-and-strip over phrases that never occur is the
identity. -/
theorem foldl_delete_fix {x : Str} (hstrip : stripStr x = x) :
    ∀ {L : List Str}, (∀ d ∈ L, isSubstr d x = false) →
      L.foldl (fun acc d => stripStr (replaceAll d acc)) x = x := by
  intro L
  induction L with
  | nil => intro _; rfl
  | cons d ds ih =>
    intro h
    show ds.foldl _ (stripStr (replaceAll d x)) = x
    rw [replaceAll_no_occ (h d (List.mem_cons_self d ds)), hstrip]
    exact ih (fun e he => h e (List.mem_cons_of_mem d he))

/-- If no zap phrase occurs, the zap scan misses. -/
theorem zapLookup_none {x : Str}
    (h : zap_dict.all (fun p => !isSubstr p.1 x) = true) :
    zapLookup x = none := by
  unfold zapLookup
  rw [List.find?_eq_none.mpr]
  · rfl
  · intro p hp
    have := List.all_eq_true.mp h p hp
    simp only [Bool.not_eq_true'] at this
    simp [this]

/-- The scan `fixCheck` certifies a fixed point of `normal_name` on the
known set. -/
theorem normal_fix {x : Str} (hmem : x ∈ known_set)
    (hfix : fixCheck x = true) : normal_name x = x := by
  unfold fixCheck at hfix
  rw [Bool.and_eq_true, Bool.and_eq_true, Bool.and_eq_true] at hfix
  obtain ⟨⟨⟨h1, h2⟩, h3⟩, h4⟩ := hfix
  have hclean : cleanup x = x := by
    unfold cleanup
    have hdel : deleteAll x = x := by
      unfold deleteAll
      exact foldl_delete_fix (stripStr_no_edge h3)
        (fun d hd => by
          have := List.all_eq_true.mp h2 d hd
          simpa using this)
    rw [hdel]
    dsimp only
    cases hl : List.lookup x synonym_dict with
    | none => rfl
    | some v =>
      rw [hl] at h4
      simp only [beq_iff_eq] at h4
      exact h4
  rw [normal_name_of_no_zap (zapLookup_none h1), hclean, if_pos hmem]

/-- Fixed-point scan, names 0 to 19. -/
theorem fixChunk0 :
    ((known_set.take 20).all (fun x => fixCheck x || x == str "Zarale")) = true := by
  decide

/-- Fixed-point scan, names 20 to 39. -/
theorem fixChunk1 :
    (((known_set.drop 20).take 20).all (fun x => fixCheck x || x == str "Zarale")) = true := by
  decide

/-- Fixed-point scan, names 40 to 59. -/
theorem fixChunk2 :
    (((known_set.drop 40).take 20).all (fun x => fixCheck x || x == str "Zarale")) = true := by
  decide

/-- Fixed-point scan, names 60 to 79. -/
theorem fixChunk3 :
    (((known_set.drop 60).take 20).all (fun x => fixCheck x || x == str "Zarale")) = true := by
  decide

/-- Fixed-point scan, names 80 to 99. -/
theorem fixChunk4 :
    (((known_set.drop 80).take 20).all (fun x => fixCheck x || x == str "Zarale")) = true := by
  decide

/-- Fixed-point scan, names 100 to 119. -/
theorem fixChunk5 :
    (((known_set.drop 100).take 20).all (fun x => fixCheck x || x == str "Zarale")) = true := by
  decide

/-- Fixed-point scan, names 120 to 139. -/
theorem fixChunk6 :
    (((known_set.drop 120).take 20).all (fun x => fixCheck x || x == str "Zarale")) = true := by
  decide

/-- Fixed-point scan, names 140 to 159. -/
theorem fixChunk7 :
    (((known_set.drop 140).take 20).all (fun x => fixCheck x || x == str "Zarale")) = true := by
  decide

/-- Fixed-point scan, names 160 to 179. -/
theorem fixChunk8 :
    (((known_set.drop 160).take 20).all (fun x => fixCheck x || x == str "Zarale")) = true := by
  decide

/-- Fixed-point scan, names 180 to 199. -/
theorem fixChunk9 :
    (((known_set.drop 180).take 20).all (fun x => fixCheck x || x == str "Zarale")) = true := by
  decide

/-- Fixed-point scan, names 200 to 219. -/
theorem fixChunk10 :
    (((known_set.drop 200).take 20).all (fun x => fixCheck x || x == str "Zarale")) = true := by
  decide

/-- Fixed-point scan, names 220 to 239. -/
theorem fixChunk11 :
    (((known_set.drop 220).take 20).all (fun x => fixCheck x || x == str "Zarale")) = true := by
  decide

/-- Fixed-point scan, names 240 to 249. -/
theorem fixChunk12 :
    (((known_set.drop 240).take 20).all (fun x => fixCheck x || x == str "Zarale")) = true := by
  decide

/-- A Boolean scan splits at a cut point. -/
theorem all_split (n : Nat) (l : List Str) (p : Str → Bool) :
    l.all p = ((l.take n).all p && (l.drop n).all p) := by
  conv_lhs => rw [← List.take_append_drop n l]
  rw [List.all_append]

/-- Every cast name passes the fixed-point scan except `"Zarale"`,
which the synonym dictionary renames to `"Gul Zarale"`. -/
theorem known_set_fixCheck :
    (known_set.all (fun x => fixCheck x || x == str "Zarale")) = true := by
  have r260 : ((known_set.drop 260).all (fun x => fixCheck x || x == str "Zarale")) = true := by decide
  have r240 : ((known_set.drop 240).all (fun x => fixCheck x || x == str "Zarale")) = true := by
    rw [all_split 20, fixChunk12, Bool.true_and, List.drop_drop]
    simpa using r260
  have r220 : ((known_set.drop 220).all (fun x => fixCheck x || x == str "Zarale")) = true := by
    rw [all_split 20, fixChunk11, Bool.true_and, List.drop_drop]
    simpa using r240
  have r200 : ((known_set.drop 200).all (fun x => fixCheck x || x == str "Zarale")) = true := by
    rw [all_split 20, fixChunk10, Bool.true_and, List.drop_drop]
    simpa using r220
  have r180 : ((known_set.drop 180).all (fun x => fixCheck x || x == str "Zarale")) = true := by
    rw [all_split 20, fixChunk9, Bool.true_and, List.drop_drop]
    simpa using r200
  have r160 : ((known_set.drop 160).all (fun x => fixCheck x || x == str "Zarale")) = true := by
    rw [all_split 20, fixChunk8, Bool.true_and, List.drop_drop]
    simpa using r180
  have r140 : ((known_set.drop 140).all (fun x => fixCheck x || x == str "Zarale")) = true := by
    rw [all_split 20, fixChunk7, Bool.true_and, List.drop_drop]
    simpa using r160
  have r120 : ((known_set.drop 120).all (fun x => fixCheck x || x == str "Zarale")) = true := by
    rw [all_split 20, fixChunk6, Bool.true_and, List.drop_drop]
    simpa using r140
  have r100 : ((known_set.drop 100).all (fun x => fixCheck x || x == str "Zarale")) = true := by
    rw [all_split 20, fixChunk5, Bool.true_and, List.drop_drop]
    simpa using r120
  have r80 : ((known_set.drop 80).all (fun x => fixCheck x || x == str "Zarale")) = true := by
    rw [all_split 20, fixChunk4, Bool.true_and, List.drop_drop]
    simpa using r100
  have r60 : ((known_set.drop 60).all (fun x => fixCheck x || x == str "Zarale")) = true := by
    rw [all_split 20, fixChunk3, Bool.true_and, List.drop_drop]
    simpa using r80
  have r40 : ((known_set.drop 40).all (fun x => fixCheck x || x == str "Zarale")) = true := by
    rw [all_split 20, fixChunk2, Bool.true_and, List.drop_drop]
    simpa using r60
  have r20 : ((known_set.drop 20).all (fun x => fixCheck x || x == str "Zarale")) = true := by
    rw [all_split 20, fixChunk1, Bool.true_and, List.drop_drop]
    simpa using r40
  rw [all_split 20, fixChunk0, Bool.true_and]
  exact r20

end Ds9

/-- C6 counterexample: `"Zarale"` is a `known_set` member, yet
`normal_name` does not return it unchanged — the synonym dictionary
renames it to `"Gul Zarale"`. -/
theorem zarale_renamed :
    str "Zarale" ∈ known_set ∧ normal_name (str "Zarale") ≠ str "Zarale" :=
  ⟨by decide, by decide⟩

/-- C6 amended: `normal_name` is idempotent on `known_set ∪ {NON_CAST}`
and the sentinel re-normalises to itself, but a known-set member need
not come back unchanged (`"Zarale"` comes back as `"Gul Zarale"`). -/
theorem normal_name_idempotent :
    (∀ x : Str, x ∈ known_set ∨ x = NON_CAST →
      normal_name (normal_name x) = normal_name x) ∧
    normal_name NON_CAST = NON_CAST := by
  have hNC : normal_name NON_CAST = NON_CAST := by decide
  refine ⟨?_, hNC⟩
  intro x hx
  rcases hx with hx | rfl
  · have hall := List.all_eq_true.mp known_set_fixCheck x hx
    rw [Bool.or_eq_true] at hall
    rcases hall with hfix | hz
    · rw [normal_fix hx hfix, normal_fix hx hfix]
    · have hzx : x = str "Zarale" := by simpa using hz
      rw [hzx]
      have h1 : normal_name (str "Zarale") = str "Gul Zarale" := by decide
      have h2 : normal_name (str "Gul Zarale") = str "Gul Zarale" := by decide
      rw [h1, h2]
  · rw [hNC, hNC]

/-- Witness for `normal_name_idempotent` at the renamed member. -/
theorem normal_name_idempotent_witness :
    normal_name (normal_name (str "Zarale")) = normal_name (str "Zarale") :=
  normal_name_idempotent.1 _ (Or.inl (by decide))
